import Mathlib

/-!
Verification of `metadata_extractor.py` (class `PhotoMetadataExtractor`).

The Python program is shallowly embedded: Python dictionaries become
association lists with Python update semantics (assigning to an existing
key replaces its value in place, a fresh key is appended), Python values
become the inductive type `Val`, fallible operations return `Except`,
and the external library calls (`PIL.Image.open`, `img._getexif()`,
`pillow_heif.read_heif`, `os.stat`) become oracle fields of a `World`
record, one per extraction step, each an `Except String _` describing
that step's external outcome.

Modelling conventions, stated once:
* Python floats are modelled as exact rationals (`ℚ`); the claims only
  exercise values whose float arithmetic is exact and whose `repr` is a
  short terminating decimal, where the model agrees with CPython.
* Python byte strings are modelled as already-decoded strings: the
  `value.decode(..., errors=ignore)` branch of `extract_exif_data`
  never raises, so it is invisible at the level of the claims.
* `float()` applied to a string is modelled as failing: the strings the
  program can feed it (hemisphere letters, `Unknown`, fallback reprs)
  are all non-numeric.
-/

namespace PhotoMeta

/-- A Python dictionary key as used by this program: either an `int`
(unresolved EXIF/GPS tag ids stay integer keys) or a `str`. -/
inductive PyKey where
| ik (n : Nat)
| sk (s : String)
deriving DecidableEq

/-- A Python value as it flows through `PhotoMetadataExtractor`:
a number (int or float, modelled exactly as a rational), a string,
a tuple of numbers (EXIF rational triples and the `img.size` pair),
a nested dictionary, or an opaque non-JSON-serializable library object
carrying its `str()` rendering (e.g. an `IFDRational`). -/
inductive Val where
| num (q : ℚ)
| str (s : String)
| tup (xs : List ℚ)
| dict (es : List (PyKey × Val))
| obj (r : String)

/-- A Python dict in this development: key/value pairs in insertion order. -/
abbrev Dict := List (PyKey × Val)

/-- Python dict assignment `d[k] = v`: replace in place if `k` is
present, otherwise append at the end (insertion order is preserved). -/
def dinsert : Dict → PyKey → Val → Dict
| [], k, v => [(k, v)]
| (k', v') :: rest, k, v =>
    if k' = k then (k, v) :: rest else (k', v') :: dinsert rest k v

/-- Python `d.get(k)` / `k in d` support: first (unique) binding of `k`. -/
def dlookup : Dict → PyKey → Option Val
| [], _ => none
| (k', v) :: rest, k => if k' = k then some v else dlookup rest k

/-- Python `k in d`. -/
def dcontains (d : Dict) (k : PyKey) : Bool := (dlookup d k).isSome

/-- Python `d[k]` under a `k in d` guard (the default is never reached
on guarded uses). -/
def dgetD (d : Dict) (k : PyKey) : Val := (dlookup d k).getD (Val.str "")

/-- A single-quote character, used when rendering Python `repr` text. -/
def sq : String := String.singleton (Char.ofNat 39)

/-- Left-pad a digit string with zeros to width `k`. -/
def padZeros (s : String) (k : Nat) : String :=
  if s.length < k then String.mk (List.replicate (k - s.length) '0') ++ s else s

/-- CPython `repr` of a float, on the exactly-representable short
decimals the program manipulates: minimal terminating decimal expansion,
always with at least one fractional digit (`repr(20.0)` is `20.0`,
`repr(-10.5)` is `-10.5`).  Rationals with no short terminating decimal
expansion (which the claims never produce) fall back to a fraction
rendering. -/
def decRepr (q : ℚ) : String :=
  let sign := if q.num < 0 then "-" else ""
  let n := q.num.natAbs
  let d := q.den
  match (List.range 18).find? (fun k => 10 ^ k % d == 0) with
  | some k =>
      let m := n * 10 ^ k / d
      let ip := m / 10 ^ k
      let fp := m % 10 ^ k
      sign ++ toString ip ++ "." ++ (if k = 0 then "0" else padZeros (toString fp) k)
  | none => sign ++ toString n ++ "/" ++ toString d

/-- Python `repr` of a dict key. -/
def reprKey : PyKey → String
| .ik n => toString n
| .sk s => sq ++ s ++ sq

mutual

/-- Python `repr()` of a value (used inside containers and for the
`str()` of every non-string value). -/
def reprV : Val → String
| .num q => decRepr q
| .str s => sq ++ s ++ sq
| .tup [] => "()"
| .tup [x] => "(" ++ decRepr x ++ ",)"
| .tup (x :: y :: rest) => "(" ++ decRepr x ++ reprTupTail (y :: rest) ++ ")"
| .dict es => "\x7b" ++ reprEntries es ++ "\x7d"
| .obj r => r

/-- Renders `, e` for each remaining tuple element. -/
def reprTupTail : List ℚ → String
| [] => ""
| x :: rest => ", " ++ decRepr x ++ reprTupTail rest

/-- Python `repr` of dict entries, comma separated. -/
def reprEntries : List (PyKey × Val) → String
| [] => ""
| [(k, v)] => reprKey k ++ ": " ++ reprV v
| (k, v) :: e :: rest => reprKey k ++ ": " ++ reprV v ++ ", " ++ reprEntries (e :: rest)

end

/-- Python `str()` of a value: strings render as themselves, everything
else as its `repr`. -/
def pyStr : Val → String
| .str s => s
| v => reprV v

/-- `convert_to_degrees` (`metadata_extractor.py` lines 100-106):
`d, m, s = value; return d + (m / 60.0) + (s / 3600.0)`, with a bare
`except` returning `str(value)` whenever unpacking into exactly three
numeric parts (or the arithmetic on them) fails. -/
def convert_to_degrees : Val → Val
| .tup [d, m, s] => .num (d + m / 60 + s / 3600)
| v => .str (pyStr v)

/-- Whether `json.dumps(value)` succeeds: numbers, strings and tuples
of numbers serialize; opaque library objects do not; a dict serializes
iff every value in it does. -/
def serializable : Val → Bool
| .num _ => true
| .str _ => true
| .tup _ => true
| .obj _ => false
| .dict [] => true
| .dict ((_, v) :: rest) => serializable v && serializable (.dict rest)

/-- Python `float(value)`: succeeds on a number, raises `TypeError`
otherwise (strings are modelled as non-numeric, see the header note). -/
def pyFloat : Val → Except String ℚ
| .num q => .ok q
| .str _ => .error "could not convert string to float"
| .tup _ => .error ("float() argument must be a string or a real number, not " ++ sq ++ "tuple" ++ sq)
| .dict _ => .error ("float() argument must be a string or a real number, not " ++ sq ++ "dict" ++ sq)
| .obj _ => .error ("float() argument must be a string or a real number, not " ++ sq ++ "object" ++ sq)

/-- Python unary minus: defined on numbers, a `TypeError` on anything
else (in particular on the string fallback of `convert_to_degrees`). -/
def pyNeg : Val → Except String Val
| .num q => .ok (.num (-q))
| .str _ => .error ("bad operand type for unary -: " ++ sq ++ "str" ++ sq)
| .tup _ => .error ("bad operand type for unary -: " ++ sq ++ "tuple" ++ sq)
| .dict _ => .error ("bad operand type for unary -: " ++ sq ++ "dict" ++ sq)
| .obj _ => .error ("bad operand type for unary -: " ++ sq ++ "object" ++ sq)

/-- The test `gps_data.get(k) == "S"` of line 88. -/
def isS : Option Val → Bool
| some (.str "S") => true
| _ => false

/-- The test `gps_data.get(k) == "W"` of line 90. -/
def isW : Option Val → Bool
| some (.str "W") => true
| _ => false

/-- `PIL.ExifTags.GPSTAGS.get(key, key)`: the standard GPS tag table
(ids 0-31); an unknown id stays an integer key. -/
def GPSTAGS_get : Nat → PyKey
| 0 => .sk "GPSVersionID"
| 1 => .sk "GPSLatitudeRef"
| 2 => .sk "GPSLatitude"
| 3 => .sk "GPSLongitudeRef"
| 4 => .sk "GPSLongitude"
| 5 => .sk "GPSAltitudeRef"
| 6 => .sk "GPSAltitude"
| 7 => .sk "GPSTimeStamp"
| 8 => .sk "GPSSatellites"
| 9 => .sk "GPSStatus"
| 10 => .sk "GPSMeasureMode"
| 11 => .sk "GPSDOP"
| 12 => .sk "GPSSpeedRef"
| 13 => .sk "GPSSpeed"
| 14 => .sk "GPSTrackRef"
| 15 => .sk "GPSTrack"
| 16 => .sk "GPSImgDirectionRef"
| 17 => .sk "GPSImgDirection"
| 18 => .sk "GPSMapDatum"
| 19 => .sk "GPSDestLatitudeRef"
| 20 => .sk "GPSDestLatitude"
| 21 => .sk "GPSDestLongitudeRef"
| 22 => .sk "GPSDestLongitude"
| 23 => .sk "GPSDestBearingRef"
| 24 => .sk "GPSDestBearing"
| 25 => .sk "GPSDestDistanceRef"
| 26 => .sk "GPSDestDistance"
| 27 => .sk "GPSProcessingMethod"
| 28 => .sk "GPSAreaInformation"
| 29 => .sk "GPSDateStamp"
| 30 => .sk "GPSDifferential"
| 31 => .sk "GPSHPositioningError"
| k => .ik k

/-- Python `gps_info.get(k, default)` on the raw int-keyed GPS block. -/
def giGet (gi : List (Nat × Val)) (k : Nat) (dflt : Val) : Val :=
  match gi with
  | [] => dflt
  | (k', v) :: rest => if k' = k then v else giGet rest k dflt

/-- The `for key in gps_info.keys()` loop of `extract_gps_info`
(lines 67-82).  Returns the accumulated `gps_data` together with
`some message` when an iteration raised (only the `float(value)` call
of the `GPSAltitude` branch can), in which case the loop stops there,
exactly as a raised exception leaves the `for`. -/
def gpsLoop (gi : List (Nat × Val)) : List (Nat × Val) → Dict → Dict × Option String
| [], acc => (acc, none)
| (k, v) :: rest, acc =>
    let tag := GPSTAGS_get k
    if tag = .sk "GPSLatitude" then
      gpsLoop gi rest (dinsert (dinsert acc (.sk "Latitude") (convert_to_degrees v))
        (.sk "LatitudeRef") (giGet gi 1 (.str "Unknown")))
    else if tag = .sk "GPSLongitude" then
      gpsLoop gi rest (dinsert (dinsert acc (.sk "Longitude") (convert_to_degrees v))
        (.sk "LongitudeRef") (giGet gi 3 (.str "Unknown")))
    else if tag = .sk "GPSAltitude" then
      match pyFloat v with
      | .ok q => gpsLoop gi rest (dinsert acc (.sk "Altitude") (.str (decRepr q ++ " meters")))
      | .error m => (acc, some m)
    else if tag = .sk "GPSTimeStamp" then
      gpsLoop gi rest (dinsert acc (.sk "GPSTime") (.str (pyStr v)))
    else
      gpsLoop gi rest (dinsert acc tag v)

/-- The post-loop block of `extract_gps_info` (lines 84-93): when both
coordinates were derived, negate latitude on `LatitudeRef == "S"`,
negate longitude on `LongitudeRef == "W"` (a negation of a non-number
raises), and store the Google Maps link; a raised negation is caught by
the function-level handler, which adds `Error` to the partial payload. -/
def gpsFinalize (acc : Dict) : Dict :=
  if dcontains acc (.sk "Latitude") && dcontains acc (.sk "Longitude") then
    match (if isS (dlookup acc (.sk "LatitudeRef"))
           then pyNeg (dgetD acc (.sk "Latitude"))
           else .ok (dgetD acc (.sk "Latitude"))) with
    | .error m => dinsert acc (.sk "Error") (.str m)
    | .ok lat2 =>
      match (if isW (dlookup acc (.sk "LongitudeRef"))
             then pyNeg (dgetD acc (.sk "Longitude"))
             else .ok (dgetD acc (.sk "Longitude"))) with
      | .error m => dinsert acc (.sk "Error") (.str m)
      | .ok lon2 =>
          dinsert acc (.sk "Google_Maps_Link")
            (.str ("https://maps.google.com/?q=" ++ pyStr lat2 ++ "," ++ pyStr lon2))
  else acc

/-- `extract_gps_info` (lines 63-98): run the loop, then either record
the caught exception message under `Error` or run the link block. -/
def extract_gps_info (gi : List (Nat × Val)) : Dict :=
  match gpsLoop gi gi [] with
  | (acc, some m) => dinsert acc (.sk "Error") (.str m)
  | (acc, none) => gpsFinalize acc

/-- A raw EXIF tag value as returned by `img._getexif()`: either an
ordinary value, or (under the `GPSInfo` tag) the nested int-keyed GPS
block. -/
inductive ExifVal where
| v (x : Val)
| gpsBlock (b : List (Nat × Val))

/-- `PIL.ExifTags.TAGS.get(tag_id, tag_id)`: a representative slice of
the standard EXIF tag table (the program only branches on `GPSInfo`);
an unknown id stays an integer key. -/
def TAGS_get : Nat → PyKey
| 256 => .sk "ImageWidth"
| 257 => .sk "ImageLength"
| 271 => .sk "Make"
| 272 => .sk "Model"
| 274 => .sk "Orientation"
| 306 => .sk "DateTime"
| 33434 => .sk "ExposureTime"
| 34853 => .sk "GPSInfo"
| 36867 => .sk "DateTimeOriginal"
| 37385 => .sk "Flash"
| k => .ik k

/-- How `extract_exif_data` stores a non-`GPSInfo` tag value: verbatim
(byte strings are modelled as already-decoded strings, see header). -/
def exifValStore : ExifVal → Val
| .v x => x
| .gpsBlock b => .dict (b.map (fun p => (PyKey.ik p.1, p.2)))

/-- `self.extract_gps_info(value)` as called on the raw `GPSInfo` tag
value: on the nested block it runs the GPS extraction; on a non-dict
value the `gps_info.keys()` call raises inside the function-level
handler, yielding the single-`Error` payload. -/
def gpsOfExifVal : ExifVal → Dict
| .gpsBlock b => extract_gps_info b
| .v _ => [(.sk "Error", .str ("object has no attribute " ++ sq ++ "keys" ++ sq))]

/-- The `exif_dict` construction loop of `extract_exif_data`
(lines 40-54). -/
def buildExifDict (ed : List (Nat × ExifVal)) : Dict :=
  ed.foldl (fun acc p =>
    let tag := TAGS_get p.1
    if tag = .sk "GPSInfo" then dinsert acc tag (.dict (gpsOfExifVal p.2))
    else dinsert acc tag (exifValStore p.2)) []

/-- Result of a successful `Image.open` in `extract_basic_info`,
bundled with the `os.path.getsize` value read in the same `try`. -/
structure ImgInfo where
  format : String
  mode : String
  width : Nat
  height : Nat
  fileSize : Nat

/-- Result of a successful `os.stat` in `extract_file_metadata`. -/
structure StatInfo where
  ctime : ℚ
  mtime : ℚ
  atime : ℚ
  mode : Nat
  ino : Nat

/-- The external world one run of the extractor sees: the target path
and, for each extraction step, the outcome of that step's external
interaction (`.error msg` models the step's `try` body raising with
message `msg`).  `exifOpen` yields `none` when `img._getexif()` returns
`None`, and `some tags` when it returns a tag dict. -/
structure World where
  path : String
  openBasic : Except String ImgInfo
  exifOpen : Except String (Option (List (Nat × ExifVal)))
  heifRead : Except String (List (String × Val))
  statRes : Except String StatInfo

/-- The metadata record `self.metadata`: category name to payload dict,
in insertion order (every payload this class ever stores is a dict). -/
abbrev Record := List (String × Dict)

/-- `self.metadata[category] = payload`. -/
def rInsert : Record → String → Dict → Record
| [], c, d => [(c, d)]
| (c', d') :: rest, c, d =>
    if c' = c then (c, d) :: rest else (c', d') :: rInsert rest c d

/-- Category lookup in the record. -/
def rGet : Record → String → Option Dict
| [], _ => none
| (c', d) :: rest, c => if c' = c then some d else rGet rest c

/-- `category in self.metadata`. -/
def rContains (r : Record) (c : String) : Bool := (rGet r c).isSome

/-- `os.path.basename`: the part after the last slash. -/
def basename (p : String) : String :=
  match (p.splitOn "/").getLast? with
  | some s => s
  | none => p

/-- The `Basic_Info` payload built on a successful open (lines 20-28). -/
def basicPayload (p : String) (img : ImgInfo) : Dict :=
  [(.sk "Format", .str img.format),
   (.sk "Mode", .str img.mode),
   (.sk "Size", .tup [(img.width : ℚ), (img.height : ℚ)]),
   (.sk "Width", .num img.width),
   (.sk "Height", .num img.height),
   (.sk "Filename", .str (basename p)),
   (.sk "File_Size", .str (toString img.fileSize ++ " bytes"))]

/-- `extract_basic_info` (lines 16-30). -/
def extract_basic_info (w : World) (r : Record) : Record :=
  match w.openBasic with
  | .ok img => rInsert r "Basic_Info" (basicPayload w.path img)
  | .error e => rInsert r "Basic_Info" [(.sk "Error", .str e)]

/-- `extract_exif_data` (lines 32-61).  The `if exif_data:` test is
Python truthiness: both `None` and an empty tag dict take the
informational branch. -/
def extract_exif_data (w : World) (r : Record) : Record :=
  match w.exifOpen with
  | .error e => rInsert r "EXIF_Data" [(.sk "Error", .str e)]
  | .ok none => rInsert r "EXIF_Data" [(.sk "Info", .str "No EXIF data found")]
  | .ok (some ed) =>
      if ed.isEmpty then rInsert r "EXIF_Data" [(.sk "Info", .str "No EXIF data found")]
      else rInsert r "EXIF_Data" (buildExifDict ed)

/-- `self.image_path.lower().endswith((".heic", ".heif"))` (line 111),
computed over the code points (the extensions at stake are ASCII). -/
def heicMatch (p : String) : Bool :=
  let lower := p.data.map Char.toLower
  ".heic".data.isSuffixOf lower || ".heif".data.isSuffixOf lower

/-- `extract_heic_metadata` (lines 108-120): nothing at all happens on
a non-matching extension (the `try` body runs no fallible statement
before the extension test). -/
def extract_heic_metadata (w : World) (r : Record) : Record :=
  if heicMatch w.path then
    match w.heifRead with
    | .ok items =>
        rInsert r "HEIC_Metadata"
          (items.foldl (fun acc it => dinsert acc (.sk it.1) it.2) [])
    | .error e => rInsert r "HEIC_Metadata" [(.sk "Error", .str e)]
  else r

/-- The `File_System_Data` payload (lines 126-132). -/
def statPayload (s : StatInfo) : Dict :=
  [(.sk "Creation_Time", .num s.ctime),
   (.sk "Modification_Time", .num s.mtime),
   (.sk "Access_Time", .num s.atime),
   (.sk "File_Permissions", .num s.mode),
   (.sk "File_Inode", .num s.ino)]

/-- `extract_file_metadata` (lines 122-135). -/
def extract_file_metadata (w : World) (r : Record) : Record :=
  match w.statRes with
  | .ok s => rInsert r "File_System_Data" (statPayload s)
  | .error e => rInsert r "File_System_Data" [(.sk "Error", .str e)]

/-- `extract_all` (lines 186-196): the four steps in order, starting
from the empty record (`display_metadata` only prints). -/
def extract_all (w : World) : Record :=
  extract_file_metadata w (extract_heic_metadata w (extract_exif_data w (extract_basic_info w [])))

/-- The per-field string-fallback of `save_to_json` (lines 170-174):
keep the value if `json.dumps(value)` succeeds, else store `str(value)`. -/
def fixVal (v : Val) : Val := if serializable v then v else .str (pyStr v)

/-- The `serializable_metadata` projection of `save_to_json`
(lines 165-176), on the dict-valued records this class produces. -/
def serializeRecord (r : Record) : Record :=
  r.map (fun cd => (cd.1, cd.2.map (fun kv => (kv.1, fixVal kv.2))))

/-- Every field of every category is JSON-serializable. -/
def recordSerializable (r : Record) : Bool :=
  r.all (fun cd => cd.2.all (fun kv => serializable kv.2))

/-- Index (in code points) of the last occurrence of `c`. -/
def rfindIdx : List Char → Char → Option Nat
| [], _ => none
| x :: rest, c =>
    match rfindIdx rest c with
    | some i => some (i + 1)
    | none => if x = c then some 0 else none

/-- Where `os.path.splitext` cuts: the last dot, provided it lies after
the last slash and some earlier character of the basename is not a dot
(a basename of only leading dots has no extension). -/
def splitextIdx (cs : List Char) : Option Nat :=
  match rfindIdx cs '.' with
  | none => none
  | some di =>
      let base :=
        match rfindIdx cs '/' with
        | none => 0
        | some si => si + 1
      if base ≤ di && ((cs.drop base).take (di - base)).any (fun c => c != '.') then some di
      else none

/-- `os.path.splitext`: root and extension of a path. -/
def splitext (p : String) : String × String :=
  match splitextIdx p.data with
  | none => (p, "")
  | some di => (String.mk (p.data.take di), String.mk (p.data.drop di))

/-- The output path `save_to_json` writes to (lines 158-161):
the argument when given, else `splitext(image_path)[0] + "_metadata.json"`. -/
def save_to_json_output (image_path : String) (output_file : Option String) : String :=
  match output_file with
  | some o => o
  | none => (splitext image_path).1 ++ "_metadata.json"

/-! Concrete inputs used by the theorems below. -/

/-- A GPS block with southern latitude 10°30' and eastern longitude 20°. -/
def gpsExample : List (Nat × Val) :=
  [(1, Val.str "S"), (2, Val.tup [10, 30, 0]), (3, Val.str "E"), (4, Val.tup [20, 0, 0])]

/-- The `gps_data` dict the loop builds from `gpsExample` (coordinate
values written as the degree arithmetic the code performs; they equal
10.5 and 20.0). -/
def gpsAccEx : Dict :=
  [(.sk "GPSLatitudeRef", .str "S"),
   (.sk "Latitude", .num (10 + 30 / 60 + 0 / 3600)), (.sk "LatitudeRef", .str "S"),
   (.sk "GPSLongitudeRef", .str "E"),
   (.sk "Longitude", .num (20 + 0 / 60 + 0 / 3600)), (.sk "LongitudeRef", .str "E")]

/-- A GPS block whose latitude triple is malformed while `LatitudeRef`
is `"S"`. -/
def gpsErrA : List (Nat × Val) :=
  [(1, Val.str "S"), (2, Val.str "oops"), (4, Val.tup [20, 0, 0])]

/-- The `gps_data` dict the loop builds from `gpsErrA`. -/
def gpsErrAAcc : Dict :=
  [(.sk "GPSLatitudeRef", .str "S"), (.sk "Latitude", .str "oops"), (.sk "LatitudeRef", .str "S"),
   (.sk "Longitude", .num (20 + 0 / 60 + 0 / 3600)), (.sk "LongitudeRef", .str "Unknown")]

/-- A GPS block whose longitude triple is malformed while
`LongitudeRef` is `"W"` and the latitude is fine. -/
def gpsErrB : List (Nat × Val) :=
  [(2, Val.tup [10, 30, 0]), (3, Val.str "W"), (4, Val.str "bad")]

/-- The `gps_data` dict the loop builds from `gpsErrB`. -/
def gpsErrBAcc : Dict :=
  [(.sk "Latitude", .num (10 + 30 / 60 + 0 / 3600)), (.sk "LatitudeRef", .str "Unknown"),
   (.sk "GPSLongitudeRef", .str "W"), (.sk "Longitude", .str "bad"), (.sk "LongitudeRef", .str "W")]

/-- A run on an ordinary JPEG where every step succeeds. -/
def wJpg : World :=
  ⟨"photo.jpg", .ok ⟨"JPEG", "RGB", 100, 80, 1234⟩, .ok none, .ok [], .ok ⟨1, 2, 3, 420, 99⟩⟩

/-- A run on a HEIC file where every step fails. -/
def wHeicFail : World := ⟨"photo.heic", .error "b1", .error "b2", .error "b3", .error "b4"⟩

/-- A run where only image decoding fails. -/
def wBasicErr : World := ⟨"a.jpg", .error "decode fail", .ok none, .ok [], .ok ⟨1, 2, 3, 4, 5⟩⟩

/-- `wBasicErr` with decoding succeeding instead. -/
def wBasicOk : World :=
  ⟨"a.jpg", .ok ⟨"JPEG", "RGB", 9, 9, 42⟩, .ok none, .ok [], .ok ⟨1, 2, 3, 4, 5⟩⟩

/-- A run whose EXIF reader returns a non-`None` but empty tag dict. -/
def wEmptyExif : World :=
  ⟨"a.jpg", .ok ⟨"JPEG", "RGB", 9, 9, 42⟩, .ok (some []), .ok [], .ok ⟨1, 2, 3, 4, 5⟩⟩

/-- A record with one non-serializable field among serializable ones. -/
def recNS : Record :=
  [("EXIF_Data",
    [(.sk "Model", .str "Pixel"), (.sk "FNumber", .obj "IFDRational(9, 5)"),
     (.sk "ISO", .num 100)])]

/-! Lemmas about the dictionary and record operations. -/

theorem dlookup_dinsert (d : Dict) (k k' : PyKey) (v : Val) :
    dlookup (dinsert d k v) k' = if k = k' then some v else dlookup d k' := by
  induction d with
  | nil => simp [dinsert, dlookup]
  | cons hd tl ih =>
      obtain ⟨k0, v0⟩ := hd
      by_cases h0 : k0 = k
      · subst h0
        by_cases h1 : k0 = k' <;> simp [dinsert, dlookup, h1]
      · by_cases h1 : k0 = k'
        · subst h1
          simp [dinsert, dlookup, h0]
          rw [if_neg (fun h2 => h0 h2.symm)]
        · simp [dinsert, dlookup, h0, h1, ih]

theorem dcontains_dinsert (d : Dict) (k k' : PyKey) (v : Val) :
    dcontains (dinsert d k v) k' = if k = k' then true else dcontains d k' := by
  by_cases h : k = k' <;> simp [dcontains, dlookup_dinsert, h]

theorem rGet_rInsert (r : Record) (c c' : String) (d : Dict) :
    rGet (rInsert r c d) c' = if c = c' then some d else rGet r c' := by
  induction r with
  | nil => simp [rInsert, rGet]
  | cons hd tl ih =>
      obtain ⟨c0, d0⟩ := hd
      by_cases h0 : c0 = c
      · subst h0
        by_cases h1 : c0 = c' <;> simp [rInsert, rGet, h1]
      · by_cases h1 : c0 = c'
        · subst h1
          simp [rInsert, rGet, h0]
          rw [if_neg (fun h2 => h0 h2.symm)]
        · simp [rInsert, rGet, h0, h1, ih]

theorem rContains_rInsert (r : Record) (c c' : String) (d : Dict) :
    rContains (rInsert r c d) c' = if c = c' then true else rContains r c' := by
  by_cases h : c = c' <;> simp [rContains, rGet_rInsert, h]

/-! Lemmas about the GPS extraction loop. -/

theorem GPSTAGS_get_ne_link (k : Nat) : GPSTAGS_get k ≠ .sk "Google_Maps_Link" := by
  unfold GPSTAGS_get
  split <;> simp

/-- The loop of `extract_gps_info` never creates the maps-link key. -/
theorem gpsLoop_link (gi rest : List (Nat × Val)) (acc : Dict) :
    dcontains (gpsLoop gi rest acc).1 (.sk "Google_Maps_Link")
      = dcontains acc (.sk "Google_Maps_Link") := by
  induction rest generalizing acc with
  | nil => rfl
  | cons hd tl ih =>
      obtain ⟨k, v⟩ := hd
      simp only [gpsLoop]
      split
      · rw [ih]; simp [dcontains_dinsert]
      · split
        · rw [ih]; simp [dcontains_dinsert]
        · split
          · split
            · rw [ih]; simp [dcontains_dinsert]
            · rfl
          · split
            · rw [ih]; simp [dcontains_dinsert]
            · rw [ih, dcontains_dinsert, if_neg (GPSTAGS_get_ne_link k)]

/-- If the final GPS payload carries the maps link, it carries both
coordinates. -/
theorem extract_gps_info_link_needs_coords (gi : List (Nat × Val)) :
    dcontains (extract_gps_info gi) (.sk "Google_Maps_Link") = true →
      dcontains (extract_gps_info gi) (.sk "Latitude") = true
      ∧ dcontains (extract_gps_info gi) (.sk "Longitude") = true := by
  unfold extract_gps_info
  rcases hL : gpsLoop gi gi [] with ⟨acc, err⟩
  have hacc : dcontains acc (.sk "Google_Maps_Link") = false := by
    have h := gpsLoop_link gi gi []
    rw [hL] at h
    simpa [dcontains, dlookup] using h
  cases err with
  | some m =>
      intro h
      rw [dcontains_dinsert] at h
      simp [hacc] at h
  | none =>
      dsimp only
      unfold gpsFinalize
      split
      case isTrue hcond =>
        simp only [Bool.and_eq_true] at hcond
        rcases hA : (if isS (dlookup acc (.sk "LatitudeRef"))
            then pyNeg (dgetD acc (.sk "Latitude"))
            else Except.ok (dgetD acc (.sk "Latitude"))) with m | lat2
        · intro h
          rw [dcontains_dinsert] at h
          simp [hacc] at h
        · rcases hB : (if isW (dlookup acc (.sk "LongitudeRef"))
              then pyNeg (dgetD acc (.sk "Longitude"))
              else Except.ok (dgetD acc (.sk "Longitude"))) with m | lon2
          · intro h
            rw [dcontains_dinsert] at h
            simp [hacc] at h
          · intro _
            rw [dcontains_dinsert, dcontains_dinsert]
            simp [hcond.1, hcond.2]
      case isFalse => intro h; exact absurd h (by simp [hacc])

/-! The claims. -/

/-- C2: `convert_to_degrees` maps every value that unpacks into three
numeric parts `(d, m, s)` to the number `d + m/60 + s/3600` (so
`(10, 30, 0)` gives `10.5` and `(0, 0, 0)` gives `0.0`), and every
other value to the string representation of the raw input; being a
total function, it never raises. -/
theorem convert_to_degrees_spec :
    (∀ d m s : ℚ, convert_to_degrees (.tup [d, m, s]) = .num (d + m / 60 + s / 3600))
    ∧ convert_to_degrees (.tup [10, 30, 0]) = .num 10.5
    ∧ convert_to_degrees (.tup [0, 0, 0]) = .num 0
    ∧ ∀ v : Val, (∀ d m s : ℚ, v ≠ .tup [d, m, s]) →
        convert_to_degrees v = .str (pyStr v) := by
  refine ⟨fun d m s => rfl, by show Val.num _ = _; norm_num,
    by show Val.num _ = _; norm_num, ?_⟩
  intro v h
  match v with
  | .num q => rfl
  | .str s => rfl
  | .dict es => rfl
  | .obj r => rfl
  | .tup [] => rfl
  | .tup [a] => rfl
  | .tup [a, b] => rfl
  | .tup [a, b, c] => exact absurd rfl (h a b c)
  | .tup (a :: b :: c :: d :: rest) => rfl

/-- Witness for C2 at the malformed input `"garbage"`. -/
theorem convert_to_degrees_spec_witness :
    convert_to_degrees (Val.str "garbage") = Val.str "garbage" :=
  convert_to_degrees_spec.2.2.2 (Val.str "garbage") (fun _ _ _ h => Val.noConfusion h)

/-- C6: on a target path whose extension is not `.heic`/`.heif`
(case-insensitively), `extract_heic_metadata` returns the record
unchanged: no `HEIC_Metadata` key is created and no other category is
touched. -/
theorem heic_skip_nonmatching :
    ∀ (w : World) (r : Record), heicMatch w.path = false →
      extract_heic_metadata w r = r := by
  intro w r h
  simp [extract_heic_metadata, h]

/-- Witness for C6 on a `.jpg` path. -/
theorem heic_skip_nonmatching_witness :
    extract_heic_metadata wJpg [] = [] :=
  heic_skip_nonmatching wJpg [] (by decide)

/-- C8: `save_to_json` with no explicit output path writes to the input
path with its extension stripped and `_metadata.json` appended: the
default path is `splitext(input)[0] ++ "_metadata.json"`, where the
stem is an actual prefix of the input obtained by removing the
extension (`photo.jpg` gives `photo_metadata.json`). -/
theorem save_default_path :
    ∀ p : String,
      save_to_json_output p none = (splitext p).1 ++ "_metadata.json"
      ∧ (splitext p).1 ++ (splitext p).2 = p
      ∧ save_to_json_output "photo.jpg" none = "photo_metadata.json" := by
  intro p
  refine ⟨rfl, ?_, by decide⟩
  obtain ⟨cs⟩ := p
  unfold splitext
  dsimp only
  cases hd : splitextIdx cs with
  | none =>
      show String.mk (cs ++ []) = String.mk cs
      rw [List.append_nil]
  | some di =>
      show String.mk (cs.take di ++ cs.drop di) = String.mk cs
      rw [List.take_append_drop]

/-- C7: whenever the GPS payload produced by `extract_gps_info` lacks
the `Latitude` key or the `Longitude` key, it carries no
`Google_Maps_Link` key. -/
theorem gps_no_link_without_coords :
    ∀ gi : List (Nat × Val),
      (dcontains (extract_gps_info gi) (.sk "Latitude") = false
        ∨ dcontains (extract_gps_info gi) (.sk "Longitude") = false) →
      dcontains (extract_gps_info gi) (.sk "Google_Maps_Link") = false := by
  intro gi h
  cases hc : dcontains (extract_gps_info gi) (.sk "Google_Maps_Link")
  · rfl
  · have hboth := extract_gps_info_link_needs_coords gi hc
    rcases h with h | h
    · rw [h] at hboth; exact absurd hboth.1 (by simp)
    · rw [h] at hboth; exact absurd hboth.2 (by simp)

/-- Witness for C7 on a block carrying only a latitude. -/
theorem gps_no_link_without_coords_witness :
    dcontains (extract_gps_info [(2, Val.tup [10, 30, 0])]) (.sk "Google_Maps_Link") = false :=
  gps_no_link_without_coords [(2, Val.tup [10, 30, 0])] (Or.inr rfl)

/-- C3: when both coordinates were derived as numbers, the latitude is
negated exactly when `LatitudeRef` is `"S"`, the longitude exactly when
`LongitudeRef` is `"W"`, and the string
`https://maps.google.com/?q={lat},{lon}` built from the possibly
negated values is stored under `Google_Maps_Link`; on the block with
latitude 10.5 S and longitude 20.0 E the stored link contains
`-10.5,20.0`. -/
theorem gps_link_sign_correction :
    (∀ (gi : List (Nat × Val)) (acc : Dict) (lat lon : ℚ),
      gpsLoop gi gi [] = (acc, none) →
      dlookup acc (.sk "Latitude") = some (.num lat) →
      dlookup acc (.sk "Longitude") = some (.num lon) →
      extract_gps_info gi
        = dinsert acc (.sk "Google_Maps_Link")
            (.str ("https://maps.google.com/?q="
              ++ decRepr (if isS (dlookup acc (.sk "LatitudeRef")) then -lat else lat)
              ++ ","
              ++ decRepr (if isW (dlookup acc (.sk "LongitudeRef")) then -lon else lon))))
    ∧ dlookup (extract_gps_info gpsExample) (.sk "Google_Maps_Link")
        = some (.str "https://maps.google.com/?q=-10.5,20.0") := by
  have hmain : ∀ (gi : List (Nat × Val)) (acc : Dict) (lat lon : ℚ),
      gpsLoop gi gi [] = (acc, none) →
      dlookup acc (.sk "Latitude") = some (.num lat) →
      dlookup acc (.sk "Longitude") = some (.num lon) →
      extract_gps_info gi
        = dinsert acc (.sk "Google_Maps_Link")
            (.str ("https://maps.google.com/?q="
              ++ decRepr (if isS (dlookup acc (.sk "LatitudeRef")) then -lat else lat)
              ++ ","
              ++ decRepr (if isW (dlookup acc (.sk "LongitudeRef")) then -lon else lon))) := by
    intro gi acc lat lon hL hlat hlon
    unfold extract_gps_info
    rw [hL]
    dsimp only
    unfold gpsFinalize
    have hclat : dcontains acc (.sk "Latitude") = true := by simp [dcontains, hlat]
    have hclon : dcontains acc (.sk "Longitude") = true := by simp [dcontains, hlon]
    rw [if_pos (show (dcontains acc (.sk "Latitude")
        && dcontains acc (.sk "Longitude")) = true by rw [hclat, hclon]; rfl)]
    have hglat : dgetD acc (.sk "Latitude") = .num lat := by simp [dgetD, hlat]
    have hglon : dgetD acc (.sk "Longitude") = .num lon := by simp [dgetD, hlon]
    rw [hglat, hglon]
    cases hS : isS (dlookup acc (.sk "LatitudeRef")) <;>
      cases hW : isW (dlookup acc (.sk "LongitudeRef")) <;>
        simp [pyNeg, pyStr, reprV]
  refine ⟨hmain, ?_⟩
  have h := hmain gpsExample gpsAccEx (10 + 30 / 60 + 0 / 3600) (20 + 0 / 60 + 0 / 3600)
    rfl rfl rfl
  rw [h, dlookup_dinsert, if_pos rfl]
  have e1 : (-(10 + 30 / 60 + 0 / 3600) : ℚ) = Rat.mk' (-21) 2 (by decide) (by decide) := by
    rw [Rat.mk'_eq_divInt, Rat.divInt_eq_div]
    norm_num
  have e2 : ((20 + 0 / 60 + 0 / 3600) : ℚ) = Rat.mk' 20 1 (by decide) (by decide) := by
    rw [Rat.mk'_eq_divInt, Rat.divInt_eq_div]
    norm_num
  show some (Val.str ("https://maps.google.com/?q="
      ++ decRepr (-(10 + 30 / 60 + 0 / 3600)) ++ "," ++ decRepr (20 + 0 / 60 + 0 / 3600))) = _
  rw [e1, e2]
  have hs : "https://maps.google.com/?q="
      ++ decRepr (Rat.mk' (-21) 2 (by decide) (by decide)) ++ ","
      ++ decRepr (Rat.mk' 20 1 (by decide) (by decide))
      = "https://maps.google.com/?q=-10.5,20.0" := by decide
  rw [hs]

/-- Witness for C3 at the concrete example block. -/
theorem gps_link_sign_correction_witness :
    extract_gps_info gpsExample
      = dinsert gpsAccEx (.sk "Google_Maps_Link")
          (.str ("https://maps.google.com/?q="
            ++ decRepr (if isS (dlookup gpsAccEx (.sk "LatitudeRef"))
                then -((10 + 30 / 60 + 0 / 3600 : ℚ)) else (10 + 30 / 60 + 0 / 3600))
            ++ ","
            ++ decRepr (if isW (dlookup gpsAccEx (.sk "LongitudeRef"))
                then -((20 + 0 / 60 + 0 / 3600 : ℚ)) else (20 + 0 / 60 + 0 / 3600)))) :=
  gps_link_sign_correction.1 gpsExample gpsAccEx (10 + 30 / 60 + 0 / 3600)
    (20 + 0 / 60 + 0 / 3600) rfl rfl rfl

/-- C10: if both coordinate keys are present but the latitude value is
the string fallback of `convert_to_degrees` while `LatitudeRef` is
`"S"` (or symmetrically the longitude is a string while `LongitudeRef`
is `"W"` and the latitude negates fine), the sign-correction negation
raises a `TypeError`; it is caught, an `Error` key with the message is
added, no `Google_Maps_Link` key is stored, and the partial payload is
returned rather than escalated. -/
theorem gps_negation_error_isolated :
    (∀ (gi : List (Nat × Val)) (acc : Dict) (s : String),
      gpsLoop gi gi [] = (acc, none) →
      dlookup acc (.sk "Latitude") = some (.str s) →
      isS (dlookup acc (.sk "LatitudeRef")) = true →
      dcontains acc (.sk "Longitude") = true →
      extract_gps_info gi
          = dinsert acc (.sk "Error")
              (.str ("bad operand type for unary -: " ++ sq ++ "str" ++ sq))
        ∧ dcontains (extract_gps_info gi) (.sk "Google_Maps_Link") = false)
    ∧ (∀ (gi : List (Nat × Val)) (acc : Dict) (s : String) (q : ℚ),
      gpsLoop gi gi [] = (acc, none) →
      dlookup acc (.sk "Latitude") = some (.num q) →
      dlookup acc (.sk "Longitude") = some (.str s) →
      isW (dlookup acc (.sk "LongitudeRef")) = true →
      extract_gps_info gi
          = dinsert acc (.sk "Error")
              (.str ("bad operand type for unary -: " ++ sq ++ "str" ++ sq))
        ∧ dcontains (extract_gps_info gi) (.sk "Google_Maps_Link") = false) := by
  constructor
  · intro gi acc s hL hlat hS hclon
    have hacc : dcontains acc (.sk "Google_Maps_Link") = false := by
      have h := gpsLoop_link gi gi []
      rw [hL] at h
      simpa [dcontains, dlookup] using h
    have hmain : extract_gps_info gi
        = dinsert acc (.sk "Error")
            (.str ("bad operand type for unary -: " ++ sq ++ "str" ++ sq)) := by
      unfold extract_gps_info
      rw [hL]
      dsimp only
      unfold gpsFinalize
      have hclat : dcontains acc (.sk "Latitude") = true := by simp [dcontains, hlat]
      have hglat : dgetD acc (.sk "Latitude") = .str s := by simp [dgetD, hlat]
      rw [if_pos (show (dcontains acc (.sk "Latitude")
          && dcontains acc (.sk "Longitude")) = true by rw [hclat, hclon]; rfl)]
      rw [hglat, hS]
      simp [pyNeg]
    refine ⟨hmain, ?_⟩
    rw [hmain, dcontains_dinsert]
    simp [hacc]
  · intro gi acc s q hL hlat hlon hW
    have hacc : dcontains acc (.sk "Google_Maps_Link") = false := by
      have h := gpsLoop_link gi gi []
      rw [hL] at h
      simpa [dcontains, dlookup] using h
    have hmain : extract_gps_info gi
        = dinsert acc (.sk "Error")
            (.str ("bad operand type for unary -: " ++ sq ++ "str" ++ sq)) := by
      unfold extract_gps_info
      rw [hL]
      dsimp only
      unfold gpsFinalize
      have hclat : dcontains acc (.sk "Latitude") = true := by simp [dcontains, hlat]
      have hclon : dcontains acc (.sk "Longitude") = true := by simp [dcontains, hlon]
      have hglat : dgetD acc (.sk "Latitude") = .num q := by simp [dgetD, hlat]
      have hglon : dgetD acc (.sk "Longitude") = .str s := by simp [dgetD, hlon]
      rw [if_pos (show (dcontains acc (.sk "Latitude")
          && dcontains acc (.sk "Longitude")) = true by rw [hclat, hclon]; rfl)]
      rw [hglat, hglon, hW]
      cases hS : isS (dlookup acc (.sk "LatitudeRef")) <;> simp [pyNeg]
    refine ⟨hmain, ?_⟩
    rw [hmain, dcontains_dinsert]
    simp [hacc]

/-- Witness for C10 at both concrete malformed blocks. -/
theorem gps_negation_error_isolated_witness :
    (extract_gps_info gpsErrA
        = dinsert gpsErrAAcc (.sk "Error")
            (.str ("bad operand type for unary -: " ++ sq ++ "str" ++ sq))
      ∧ dcontains (extract_gps_info gpsErrA) (.sk "Google_Maps_Link") = false)
    ∧ (extract_gps_info gpsErrB
        = dinsert gpsErrBAcc (.sk "Error")
            (.str ("bad operand type for unary -: " ++ sq ++ "str" ++ sq))
      ∧ dcontains (extract_gps_info gpsErrB) (.sk "Google_Maps_Link") = false) :=
  ⟨gps_negation_error_isolated.1 gpsErrA gpsErrAAcc "oops" rfl rfl rfl rfl,
   gps_negation_error_isolated.2 gpsErrB gpsErrBAcc "bad" (10 + 30 / 60 + 0 / 3600)
     rfl rfl rfl rfl⟩

/-- C9: when the EXIF reader returns a non-`None` but empty tag dict,
`extract_exif_data` records `EXIF_Data = {"Info": "No EXIF data found"}`
-- the same informational payload as for absent EXIF data, because
`if exif_data:` tests truthiness, not `None`-ness. -/
theorem exif_empty_dict_info :
    ∀ w : World, w.exifOpen = .ok (some []) →
      rGet (extract_all w) "EXIF_Data" = some [(.sk "Info", .str "No EXIF data found")] := by
  intro w h
  obtain ⟨p, ob, eo, hf, st⟩ := w
  dsimp only at h
  subst h
  rcases ob with eB | img <;> rcases st with eS | stv <;> rcases hf with eH | items <;>
    by_cases hm : heicMatch p <;>
      simp [extract_all, extract_basic_info, extract_exif_data, extract_heic_metadata,
        extract_file_metadata, rGet_rInsert, hm]

/-- Witness for C9 at a concrete run with an empty EXIF dict. -/
theorem exif_empty_dict_info_witness :
    rGet (extract_all wEmptyExif) "EXIF_Data"
      = some [(.sk "Info", .str "No EXIF data found")] :=
  exif_empty_dict_info wEmptyExif rfl

/-- A fixed-up field is always serializable. -/
theorem serializable_fixVal (v : Val) : serializable (fixVal v) = true := by
  unfold fixVal
  by_cases h : serializable v = true
  · rw [if_pos h]; exact h
  · rw [if_neg h]; simp [serializable]

theorem rGet_serializeRecord (r : Record) (c : String) :
    rGet (serializeRecord r) c
      = (rGet r c).map (fun d => d.map (fun kv => (kv.1, fixVal kv.2))) := by
  induction r with
  | nil => rfl
  | cons hd tl ih =>
      obtain ⟨c', d⟩ := hd
      by_cases h : c' = c
      · simp [serializeRecord, rGet, h]
      · simp [serializeRecord, rGet, h]
        simpa [serializeRecord] using ih

theorem dlookup_map_fix (d : Dict) (k : PyKey) :
    dlookup (d.map (fun kv => (kv.1, fixVal kv.2))) k = (dlookup d k).map fixVal := by
  induction d with
  | nil => rfl
  | cons hd tl ih =>
      obtain ⟨k', v⟩ := hd
      by_cases h : k' = k <;> simp [dlookup, h, ih]

/-- C5: `save_to_json` serializes every field of every mapping category
in its native form when `json.dumps` accepts it, substitutes exactly the
offending field's `str()` otherwise, and the resulting record is wholly
serializable, so the write never fails because of one bad field. -/
theorem save_to_json_field_fallback :
    (∀ (r : Record) (c : String) (d : Dict), rGet r c = some d →
        rGet (serializeRecord r) c = some (d.map (fun kv => (kv.1, fixVal kv.2))))
    ∧ (∀ (d : Dict) (k : PyKey) (v : Val), dlookup d k = some v →
        dlookup (d.map (fun kv => (kv.1, fixVal kv.2))) k
          = some (if serializable v then v else Val.str (pyStr v)))
    ∧ (∀ v : Val, serializable v = true → fixVal v = v)
    ∧ (∀ r : Record, recordSerializable (serializeRecord r) = true) := by
  refine ⟨?_, ?_, ?_, ?_⟩
  · intro r c d h
    rw [rGet_serializeRecord, h]
    rfl
  · intro d k v h
    rw [dlookup_map_fix, h]
    rfl
  · intro v h
    unfold fixVal
    rw [if_pos h]
  · intro r
    unfold recordSerializable serializeRecord
    rw [List.all_map]
    refine List.all_eq_true.mpr ?_
    intro cd _
    dsimp only [Function.comp]
    rw [List.all_map]
    refine List.all_eq_true.mpr ?_
    intro kv _
    exact serializable_fixVal kv.2

/-- Witness for C5 on a record with one non-serializable field. -/
theorem save_to_json_field_fallback_witness :
    rGet (serializeRecord recNS) "EXIF_Data"
      = some [(.sk "Model", .str "Pixel"), (.sk "FNumber", .str "IFDRational(9, 5)"),
              (.sk "ISO", .num 100)] := by
  have h := save_to_json_field_fallback.1 recNS "EXIF_Data"
    [(.sk "Model", .str "Pixel"), (.sk "FNumber", .obj "IFDRational(9, 5)"),
     (.sk "ISO", .num 100)] rfl
  rw [h]
  simp [fixVal, serializable, pyStr, reprV]

/-- On a failed decode, `Basic_Info` is the error payload. -/
theorem basic_error_payload :
    ∀ (w : World) (e : String), w.openBasic = .error e →
      rGet (extract_all w) "Basic_Info" = some [(.sk "Error", .str e)] := by
  intro w e h
  obtain ⟨p, ob, eo, hf, st⟩ := w
  dsimp only at h
  subst h
  rcases st with eS | stv <;> rcases hf with eH | items <;> rcases eo with eE | oe
  all_goals try rcases oe with _ | l
  all_goals try rcases l with _ | ⟨x0, l0⟩
  all_goals
    by_cases hm : heicMatch p <;>
      simp [extract_all, extract_basic_info, extract_exif_data, extract_heic_metadata,
        extract_file_metadata, rGet_rInsert, rGet, hm]

/-- C1 counterexample: a fully successful run on `photo.jpg` has no
`HEIC_Metadata` category at all, so the record does not always contain
all four categories. -/
theorem extract_all_heic_absent_counterexample :
    rContains (extract_all wJpg) "HEIC_Metadata" = false := by
  simp [wJpg, extract_all, extract_basic_info, extract_exif_data, extract_heic_metadata,
    extract_file_metadata, rContains_rInsert, rContains, rGet]

/-- C1 (amended): after `extract_all`, the record always contains
`Basic_Info`, `EXIF_Data` and `File_System_Data`, contains
`HEIC_Metadata` exactly when the path has a high-efficiency extension,
and each present category whose extraction failed holds the payload
`{"Error": message}`. -/
theorem extract_all_categories :
    ∀ w : World,
      rContains (extract_all w) "Basic_Info" = true
      ∧ rContains (extract_all w) "EXIF_Data" = true
      ∧ rContains (extract_all w) "File_System_Data" = true
      ∧ rContains (extract_all w) "HEIC_Metadata" = heicMatch w.path
      ∧ (∀ e, w.openBasic = .error e →
          rGet (extract_all w) "Basic_Info" = some [(.sk "Error", .str e)])
      ∧ (∀ e, w.exifOpen = .error e →
          rGet (extract_all w) "EXIF_Data" = some [(.sk "Error", .str e)])
      ∧ (∀ e, heicMatch w.path = true → w.heifRead = .error e →
          rGet (extract_all w) "HEIC_Metadata" = some [(.sk "Error", .str e)])
      ∧ (∀ e, w.statRes = .error e →
          rGet (extract_all w) "File_System_Data" = some [(.sk "Error", .str e)]) := by
  intro w
  obtain ⟨p, ob, eo, hf, st⟩ := w
  rcases ob with eB | img <;> rcases st with eS | stv <;> rcases hf with eH | items <;>
    rcases eo with eE | oe
  all_goals try rcases oe with _ | l
  all_goals try rcases l with _ | ⟨x0, l0⟩
  all_goals
    by_cases hm : heicMatch p <;>
      simp [extract_all, extract_basic_info, extract_exif_data, extract_heic_metadata,
        extract_file_metadata, rGet_rInsert, rContains_rInsert, rContains, rGet, hm]

/-- Witness for C1 (amended) at the all-failing HEIC run. -/
theorem extract_all_categories_witness :
    rGet (extract_all wHeicFail) "Basic_Info" = some [(.sk "Error", .str "b1")]
    ∧ rGet (extract_all wHeicFail) "HEIC_Metadata" = some [(.sk "Error", .str "b3")]
    ∧ rContains (extract_all wHeicFail) "HEIC_Metadata" = heicMatch wHeicFail.path :=
  ⟨(extract_all_categories wHeicFail).2.2.2.2.1 "b1" rfl,
   (extract_all_categories wHeicFail).2.2.2.2.2.2.1 "b3" (by decide) rfl,
   (extract_all_categories wHeicFail).2.2.2.1⟩

/-- Inserting the same category payload preserves agreement at `c`. -/
theorem rGet_congr_insert (r1 r2 : Record) (k c : String) (d : Dict)
    (h : rGet r1 c = rGet r2 c) :
    rGet (rInsert r1 k d) c = rGet (rInsert r2 k d) c := by
  rw [rGet_rInsert, rGet_rInsert, h]

/-- `extract_exif_data` preserves agreement at any category. -/
theorem exif_step_congr (w : World) (r1 r2 : Record) (c : String)
    (h : rGet r1 c = rGet r2 c) :
    rGet (extract_exif_data w r1) c = rGet (extract_exif_data w r2) c := by
  unfold extract_exif_data
  rcases w.exifOpen with e | oe
  · exact rGet_congr_insert r1 r2 _ c _ h
  · rcases oe with _ | l
    · exact rGet_congr_insert r1 r2 _ c _ h
    · dsimp only
      split <;> exact rGet_congr_insert r1 r2 _ c _ h

/-- `extract_heic_metadata` preserves agreement at any category. -/
theorem heic_step_congr (w : World) (r1 r2 : Record) (c : String)
    (h : rGet r1 c = rGet r2 c) :
    rGet (extract_heic_metadata w r1) c = rGet (extract_heic_metadata w r2) c := by
  unfold extract_heic_metadata
  split
  · rcases w.heifRead with e | items <;> exact rGet_congr_insert r1 r2 _ c _ h
  · exact h

/-- `extract_file_metadata` preserves agreement at any category. -/
theorem file_step_congr (w : World) (r1 r2 : Record) (c : String)
    (h : rGet r1 c = rGet r2 c) :
    rGet (extract_file_metadata w r1) c = rGet (extract_file_metadata w r2) c := by
  unfold extract_file_metadata
  rcases w.statRes with e | s <;> exact rGet_congr_insert r1 r2 _ c _ h

/-- The three non-basic categories are computed independently of the
decode outcome: worlds differing only in `openBasic` agree on them. -/
theorem extract_all_ignores_openBasic (p : String)
    (ob ob' : Except String ImgInfo) (eo : Except String (Option (List (Nat × ExifVal))))
    (hf : Except String (List (String × Val))) (st : Except String StatInfo)
    (c : String) (hc : ("Basic_Info" : String) ≠ c) :
    rGet (extract_all ⟨p, ob, eo, hf, st⟩) c = rGet (extract_all ⟨p, ob', eo, hf, st⟩) c := by
  unfold extract_all
  apply file_step_congr
  apply heic_step_congr
  apply exif_step_congr
  rcases ob with eB | img <;> rcases ob' with eB' | img' <;>
    simp [extract_basic_info, rGet_rInsert, rGet, if_neg hc]

/-- C4: when image decoding fails, `Basic_Info` holds the error payload
and the other three categories are exactly what they would have been
had decoding succeeded (or failed differently): each step is a failure
isolation boundary and `extract_all` is a total function of the
per-step outcomes. -/
theorem decode_failure_isolated :
    ∀ (w : World) (e : String), w.openBasic = .error e →
      rGet (extract_all w) "Basic_Info" = some [(.sk "Error", .str e)]
      ∧ ∀ w' : World, w'.path = w.path → w'.exifOpen = w.exifOpen →
          w'.heifRead = w.heifRead → w'.statRes = w.statRes →
          rGet (extract_all w') "EXIF_Data" = rGet (extract_all w) "EXIF_Data"
          ∧ rGet (extract_all w') "HEIC_Metadata" = rGet (extract_all w) "HEIC_Metadata"
          ∧ rGet (extract_all w') "File_System_Data" = rGet (extract_all w) "File_System_Data" := by
  intro w e h
  constructor
  · exact basic_error_payload w e h
  · intro w' h1 h2 h3 h4
    obtain ⟨p, ob, eo, hf, st⟩ := w
    obtain ⟨p', ob', eo', hf', st'⟩ := w'
    dsimp only at h1 h2 h3 h4
    subst h1; subst h2; subst h3; subst h4
    refine ⟨?_, ?_, ?_⟩ <;> apply extract_all_ignores_openBasic <;> decide

/-- Witness for C4: decoding fails, EXIF still succeeds identically. -/
theorem decode_failure_isolated_witness :
    rGet (extract_all wBasicErr) "Basic_Info" = some [(.sk "Error", .str "decode fail")]
    ∧ rGet (extract_all wBasicOk) "EXIF_Data" = rGet (extract_all wBasicErr) "EXIF_Data" :=
  ⟨(decode_failure_isolated wBasicErr "decode fail" rfl).1,
   ((decode_failure_isolated wBasicErr "decode fail" rfl).2 wBasicOk rfl rfl rfl rfl).1⟩

end PhotoMeta
